import Mathlib

set_option maxRecDepth 16384

/-!
Verification development for the insurance-risk-analytics repository.

The repository scaffolds a data-version-control workspace (`setup_dvc.py`,
`src/dvc_setup.py`), loads a raw delimited dataset (`src/data_loader.py`)
and produces exploratory-data-analysis reports (`src/eda.py`).  This file
gives a shallow embedding of the data model and the operations those
scripts perform, and proves the spec's claims about them.
-/

namespace InsuranceRisk

/-! ## Decimal numerals

The structured text documents written by the repository (pipeline file,
parameter files, state file) carry decimal numerals.  `printNat`/`parseNat`
and `printInt`/`parseInt` model the rendering and reading of such numerals.
-/

def digitChar (d : Nat) : Char := Char.ofNat (48 + d)

def digitVal? (c : Char) : Option Nat :=
  if '0' ≤ c ∧ c ≤ '9' then some (c.toNat - 48) else none

theorem digitVal?_digitChar {d : Nat} (h : d < 10) : digitVal? (digitChar d) = some d := by
  interval_cases d <;> decide

def printNat (n : Nat) : List Char :=
  if n = 0 then ['0'] else ((Nat.digits 10 n).map digitChar).reverse

def readDigitVals : List Char → Option (List Nat)
  | [] => some []
  | c :: t =>
    match digitVal? c, readDigitVals t with
    | some d, some ds => some (d :: ds)
    | _, _ => none

def parseNat (cs : List Char) : Option Nat :=
  if cs = [] then none
  else (readDigitVals cs).map fun ds => Nat.ofDigits 10 ds.reverse

theorem readDigitVals_map {ds : List Nat} (h : ∀ d ∈ ds, d < 10) :
    readDigitVals (ds.map digitChar) = some ds := by
  induction ds with
  | nil => rfl
  | cons d t ih =>
    have hd : d < 10 := h d (List.mem_cons_self d t)
    have ht : ∀ x ∈ t, x < 10 := fun x hx => h x (List.mem_cons_of_mem d hx)
    simp [readDigitVals, digitVal?_digitChar hd, ih ht]

theorem printNat_ne_nil (n : Nat) : printNat n ≠ [] := by
  by_cases h0 : n = 0
  · subst h0; simp [printNat]
  · rw [printNat, if_neg h0]
    simpa using Nat.digits_ne_nil_iff_ne_zero.mpr h0

theorem parseNat_printNat (n : Nat) : parseNat (printNat n) = some n := by
  by_cases h0 : n = 0
  · subst h0; decide
  · have hlt : ∀ d ∈ (Nat.digits 10 n).reverse, d < 10 := fun d hd =>
      Nat.digits_lt_base (by norm_num) (List.mem_reverse.mp hd)
    have hrw : printNat n = ((Nat.digits 10 n).reverse).map digitChar := by
      rw [printNat, if_neg h0, List.map_reverse]
    rw [parseNat, if_neg (printNat_ne_nil n), hrw, readDigitVals_map hlt]
    simp [Nat.ofDigits_digits]

/-! Signed decimal numerals. -/

def printInt (n : Int) : List Char :=
  if n < 0 then '-' :: printNat n.natAbs else printNat n.toNat

def parseInt (cs : List Char) : Option Int :=
  if cs.head? = some '-' then
    match parseNat cs.tail with
    | some m => some (-(m : Int))
    | none => none
  else
    match parseNat cs with
    | some m => some ((m : Int))
    | none => none

theorem printNat_mem {c : Char} {n : Nat} (h : c ∈ printNat n) :
    ∃ d, d < 10 ∧ c = digitChar d := by
  by_cases h0 : n = 0
  · subst h0
    simp [printNat] at h
    exact ⟨0, by norm_num, by rw [h]; decide⟩
  · rw [printNat, if_neg h0] at h
    simp only [List.mem_reverse, List.mem_map] at h
    obtain ⟨d, hd, hc⟩ := h
    exact ⟨d, Nat.digits_lt_base (by norm_num) hd, hc.symm⟩

theorem printNat_head_ne {n : Nat} {c : Char} (h : (printNat n).head? = some c) :
    ¬ c = '-' := by
  intro hc
  subst hc
  have hmem : '-' ∈ printNat n := by
    cases hp : printNat n with
    | nil => rw [hp] at h; simp at h
    | cons a t =>
      rw [hp] at h
      simp only [List.head?_cons, Option.some.injEq] at h
      rw [← h]
      exact List.mem_cons_self a t
  obtain ⟨d, hd, hcd⟩ := printNat_mem hmem
  interval_cases d <;> exact absurd hcd (by decide)

theorem parseInt_printInt (n : Int) : parseInt (printInt n) = some n := by
  by_cases hneg : n < 0
  · have h1 : printInt n = '-' :: printNat n.natAbs := by rw [printInt, if_pos hneg]
    rw [h1, parseInt]
    simp [parseNat_printNat, abs_of_neg hneg]
  · have h1 : printInt n = printNat n.toNat := by rw [printInt, if_neg hneg]
    obtain ⟨c, t, hct⟩ := List.exists_cons_of_ne_nil (printNat_ne_nil n.toNat)
    have hd : (printNat n.toNat).head? = some c := by rw [hct]; rfl
    have hcm : ¬ c = '-' := printNat_head_ne hd
    rw [h1, parseInt, hd, if_neg (by simpa using hcm), parseNat_printNat]
    simp only [Option.some.injEq]
    omega

/-! ## Line escaping

File content is modelled as a list of lines; a string scalar embedded in a
single line has its backslashes and newline characters escaped so that one
scalar occupies exactly one physical line.
-/

def escapeChars : List Char → List Char
  | [] => []
  | c :: t =>
    if c = '\\' then '\\' :: '\\' :: escapeChars t
    else if c = '\n' then '\\' :: 'n' :: escapeChars t
    else c :: escapeChars t

def unescapeChars : List Char → List Char
  | [] => []
  | c :: t =>
    if c = '\\' then
      match t with
      | [] => ['\\']
      | d :: t' => (if d = 'n' then '\n' else d) :: unescapeChars t'
    else c :: unescapeChars t

theorem unescapeChars_escapeChars (cs : List Char) :
    unescapeChars (escapeChars cs) = cs := by
  induction cs with
  | nil => rfl
  | cons c t ih =>
    by_cases hb : c = '\\'
    · subst hb
      rw [escapeChars, if_pos rfl, unescapeChars.eq_def]
      simp [ih]
    · by_cases hn : c = '\n'
      · subst hn
        rw [escapeChars, if_neg hb, if_pos rfl, unescapeChars.eq_def]
        simp [ih]
      · rw [escapeChars, if_neg hb, if_neg hn, unescapeChars.eq_def]
        simp [hb, ih]

/-! ## Splitting a float token at its decimal point -/

def splitAtDot : List Char → Option (List Char × List Char)
  | [] => none
  | c :: t =>
    if c = '.' then some ([], t)
    else match splitAtDot t with
      | some p => some (c :: p.1, p.2)
      | none => none

theorem splitAtDot_append {a : List Char} (b : List Char) (h : '.' ∉ a) :
    splitAtDot (a ++ '.' :: b) = some (a, b) := by
  induction a with
  | nil => simp [splitAtDot]
  | cons c t ih =>
    have hc : ¬ c = '.' := fun hc => h (hc ▸ List.mem_cons_self c t)
    have ht : '.' ∉ t := fun hm => h (List.mem_cons_of_mem c hm)
    simp [splitAtDot, hc, ih ht]

theorem printInt_no_dot {m : Int} : '.' ∉ printInt m := by
  intro hmem
  rw [printInt] at hmem
  by_cases h : m < 0
  · rw [if_pos h] at hmem
    rcases List.mem_cons.mp hmem with h1 | h1
    · exact absurd h1 (by decide)
    · obtain ⟨d, hd, hcd⟩ := printNat_mem h1
      interval_cases d <;> exact absurd hcd (by decide)
  · rw [if_neg h] at hmem
    obtain ⟨d, hd, hcd⟩ := printNat_mem hmem
    interval_cases d <;> exact absurd hcd (by decide)

/-! ## Parameter / pipeline documents

`PValue` is the nested-mapping value model shared by the Parameter Store
and the pipeline document of `DVCSetup.create_dvc_pipeline`: scalars
(strings, integers, floats, booleans), sequences, and nested mappings.
Floating-point scalars are modelled by their decimal rendering (mantissa
and fractional-digit count), which is what the structured text format
actually stores; the constructor is distinct from `intNum`, so the
integer/float distinction is part of the value.

A persisted document is a list of physical lines (each line a list of
characters).  `emitVal` models the serializer (the library dump call in
`create_dvc_pipeline`); `parseVal` is the matching reader.
-/

inductive PValue where
  | str (s : String)
  | intNum (n : Int)
  | floatNum (mant : Int) (fracDigits : Nat)
  | boolVal (b : Bool)
  | seq (xs : List PValue)
  | pmap (kvs : List (String × PValue))

mutual

def sizeV : PValue → Nat
  | .str _ => 1
  | .intNum _ => 1
  | .floatNum _ _ => 1
  | .boolVal _ => 1
  | .seq xs => 1 + sizeL xs
  | .pmap kvs => 1 + sizeE kvs

def sizeL : List PValue → Nat
  | [] => 1
  | v :: t => 1 + sizeV v + sizeL t

def sizeE : List (String × PValue) → Nat
  | [] => 1
  | (_, v) :: t => 1 + sizeV v + sizeE t

end

mutual

def emitVal : PValue → List (List Char)
  | .str s => [('S' :: escapeChars s.data)]
  | .intNum n => [('I' :: printInt n)]
  | .floatNum m d => [('F' :: (printInt m ++ '.' :: printNat d))]
  | .boolVal true => [['B', '1']]
  | .boolVal false => [['B', '0']]
  | .seq xs => ('L' :: printNat xs.length) :: emitItems xs
  | .pmap kvs => ('M' :: printNat kvs.length) :: emitEntries kvs

def emitItems : List PValue → List (List Char)
  | [] => []
  | v :: t => emitVal v ++ emitItems t

def emitEntries : List (String × PValue) → List (List Char)
  | [] => []
  | (k, v) :: t => ('K' :: escapeChars k.data) :: (emitVal v ++ emitEntries t)

end

mutual

def parseVal : Nat → List (List Char) → Option (PValue × List (List Char))
  | 0, _ => none
  | _ + 1, [] => none
  | _ + 1, [] :: _ => none
  | fuel + 1, (t :: cs) :: rest =>
    if t = 'S' then some (.str (String.mk (unescapeChars cs)), rest)
    else if t = 'I' then
      match parseInt cs with
      | some n => some (.intNum n, rest)
      | none => none
    else if t = 'F' then
      match splitAtDot cs with
      | some p =>
        match parseInt p.1, parseNat p.2 with
        | some m, some d => some (.floatNum m d, rest)
        | _, _ => none
      | none => none
    else if t = 'B' then
      if cs = ['1'] then some (.boolVal true, rest)
      else if cs = ['0'] then some (.boolVal false, rest)
      else none
    else if t = 'L' then
      match parseNat cs with
      | some n =>
        match parseItems fuel n rest with
        | some q => some (.seq q.1, q.2)
        | none => none
      | none => none
    else if t = 'M' then
      match parseNat cs with
      | some n =>
        match parseEntryList fuel n rest with
        | some q => some (.pmap q.1, q.2)
        | none => none
      | none => none
    else none

def parseItems : Nat → Nat → List (List Char) → Option (List PValue × List (List Char))
  | 0, _, _ => none
  | _ + 1, 0, ls => some ([], ls)
  | fuel + 1, n + 1, ls =>
    match parseVal fuel ls with
    | some p =>
      match parseItems fuel n p.2 with
      | some q => some (p.1 :: q.1, q.2)
      | none => none
    | none => none

def parseEntryList :
    Nat → Nat → List (List Char) → Option (List (String × PValue) × List (List Char))
  | 0, _, _ => none
  | _ + 1, 0, ls => some ([], ls)
  | _ + 1, _ + 1, [] => none
  | _ + 1, _ + 1, [] :: _ => none
  | fuel + 1, n + 1, (t :: kcs) :: ls =>
    if t = 'K' then
      match parseVal fuel ls with
      | some p =>
        match parseEntryList fuel n p.2 with
        | some q => some ((String.mk (unescapeChars kcs), p.1) :: q.1, q.2)
        | none => none
      | none => none
    else none

end

theorem sizeV_pos (v : PValue) : 0 < sizeV v := by
  cases v <;> simp only [sizeV] <;> omega

theorem sizeL_pos (xs : List PValue) : 0 < sizeL xs := by
  cases xs with
  | nil => simp [sizeL]
  | cons v t => simp only [sizeL]; omega

theorem sizeE_pos (kvs : List (String × PValue)) : 0 < sizeE kvs := by
  cases kvs with
  | nil => simp [sizeE]
  | cons e t => obtain ⟨k, v⟩ := e; simp only [sizeE]; omega

theorem parse_emit (fuel : Nat) :
    (∀ v rest, sizeV v ≤ fuel → parseVal fuel (emitVal v ++ rest) = some (v, rest)) ∧
    (∀ xs rest, sizeL xs ≤ fuel →
      parseItems fuel xs.length (emitItems xs ++ rest) = some (xs, rest)) ∧
    (∀ kvs rest, sizeE kvs ≤ fuel →
      parseEntryList fuel kvs.length (emitEntries kvs ++ rest) = some (kvs, rest)) := by
  induction fuel with
  | zero =>
    refine ⟨fun v rest h => ?_, fun xs rest h => ?_, fun kvs rest h => ?_⟩
    · exact absurd h (by have := sizeV_pos v; omega)
    · exact absurd h (by have := sizeL_pos xs; omega)
    · exact absurd h (by have := sizeE_pos kvs; omega)
  | succ f ih =>
    obtain ⟨ihV, ihL, ihE⟩ := ih
    refine ⟨fun v rest h => ?_, fun xs rest h => ?_, fun kvs rest h => ?_⟩
    · cases v with
      | str s =>
        simp [emitVal, parseVal, unescapeChars_escapeChars]
      | intNum n =>
        simp [emitVal, parseVal, parseInt_printInt]
      | floatNum m d =>
        simp [emitVal, parseVal, splitAtDot_append _ printInt_no_dot,
          parseInt_printInt, parseNat_printNat]
      | boolVal b =>
        cases b <;> simp [emitVal, parseVal]
      | seq xs =>
        have hx : sizeL xs ≤ f := by
          simp only [sizeV] at h; omega
        simp [emitVal, parseVal, parseNat_printNat, ihL xs rest hx]
      | pmap kvs =>
        have hx : sizeE kvs ≤ f := by
          simp only [sizeV] at h; omega
        simp [emitVal, parseVal, parseNat_printNat, ihE kvs rest hx]
    · cases xs with
      | nil => simp [emitItems, parseItems]
      | cons v t =>
        have hv : sizeV v ≤ f := by simp only [sizeL] at h; omega
        have ht : sizeL t ≤ f := by simp only [sizeL] at h; omega
        simp [emitItems, parseItems, List.append_assoc,
          ihV v (emitItems t ++ rest) hv, ihL t rest ht]
    · cases kvs with
      | nil => simp [emitEntries, parseEntryList]
      | cons e t =>
        obtain ⟨k, v⟩ := e
        have hv : sizeV v ≤ f := by simp only [sizeE] at h; omega
        have ht : sizeE t ≤ f := by simp only [sizeE] at h; omega
        simp [emitEntries, parseEntryList, List.append_assoc,
          ihV v (emitEntries t ++ rest) hv, ihE t rest ht,
          unescapeChars_escapeChars]

theorem size_le_emit_len (N : Nat) :
    (∀ v, sizeV v ≤ N → sizeV v + 1 ≤ 3 * (emitVal v).length) ∧
    (∀ xs, sizeL xs ≤ N → sizeL xs ≤ 1 + 3 * (emitItems xs).length) ∧
    (∀ kvs, sizeE kvs ≤ N → sizeE kvs ≤ 1 + 3 * (emitEntries kvs).length) := by
  induction N with
  | zero =>
    refine ⟨fun v h => ?_, fun xs h => ?_, fun kvs h => ?_⟩
    · exact absurd h (by have := sizeV_pos v; omega)
    · exact absurd h (by have := sizeL_pos xs; omega)
    · exact absurd h (by have := sizeE_pos kvs; omega)
  | succ N ih =>
    obtain ⟨ihV, ihL, ihE⟩ := ih
    refine ⟨fun v h => ?_, fun xs h => ?_, fun kvs h => ?_⟩
    · cases v with
      | str s => simp [emitVal, sizeV]
      | intNum n => simp [emitVal, sizeV]
      | floatNum m d => simp [emitVal, sizeV]
      | boolVal b => cases b <;> simp [emitVal, sizeV]
      | seq xs =>
        have hx : sizeL xs ≤ N := by simp only [sizeV] at h; omega
        have := ihL xs hx
        simp only [emitVal, sizeV, List.length_cons]
        omega
      | pmap kvs =>
        have hx : sizeE kvs ≤ N := by simp only [sizeV] at h; omega
        have := ihE kvs hx
        simp only [emitVal, sizeV, List.length_cons]
        omega
    · cases xs with
      | nil => simp [emitItems, sizeL]
      | cons v t =>
        have hv : sizeV v ≤ N := by simp only [sizeL] at h; omega
        have ht : sizeL t ≤ N := by simp only [sizeL] at h; omega
        have h1 := ihV v hv
        have h2 := ihL t ht
        simp only [emitItems, sizeL, List.length_append]
        omega
    · cases kvs with
      | nil => simp [emitEntries, sizeE]
      | cons e t =>
        obtain ⟨k, v⟩ := e
        have hv : sizeV v ≤ N := by simp only [sizeE] at h; omega
        have ht : sizeE t ≤ N := by simp only [sizeE] at h; omega
        have h1 := ihV v hv
        have h2 := ihE t ht
        simp only [emitEntries, sizeE, List.length_cons, List.length_append]
        omega

/-- The Parameter Store writer: serializes a nested mapping of scalars to a
structured text document (a list of physical lines), as
`create_dvc_pipeline` does for the pipeline and parameter files. -/
def writeDocument (v : PValue) : List (List Char) := emitVal v

/-- Modelled from the spec: the repository writes parameter and pipeline
documents but contains no reader for them; §4.3's
`readDocument(name)` ("deserializes it back to an equivalent nested
mapping") is modelled as the matching reader of `writeDocument`'s
structured text format. -/
def readDocument (doc : List (List Char)) : Option PValue :=
  match parseVal (3 * doc.length) doc with
  | some p => if p.2 = [] then some p.1 else none
  | none => none

theorem readDocument_writeDocument (v : PValue) :
    readDocument (writeDocument v) = some v := by
  have hb := (size_le_emit_len (sizeV v)).1 v le_rfl
  have h := (parse_emit (3 * (emitVal v).length)).1 v [] (by omega)
  rw [List.append_nil] at h
  rw [readDocument, writeDocument, h]
  simp

/-! ## The pipeline document of `DVCSetup.create_dvc_pipeline`

`pipelineConfig` is the literal nested mapping that
`create_dvc_pipeline` serializes into `dvc.yaml`, with the stages and
per-stage fields in the order the source writes them.
-/

def pipelineConfig : PValue :=
  .pmap [("stages", .pmap [
    ("load_data", .pmap [
      ("cmd", .str "python src/pipeline/load_data.py"),
      ("deps", .seq [.str "src/pipeline/load_data.py",
                     .str "data/raw/MachineLearningRating_v3.txt"]),
      ("outs", .seq [.str "data/processed/cleaned_data.csv",
                     .str "data/processed/data_info.json"]),
      ("metrics", .seq [.str "reports/load_metrics.json"]),
      ("plots", .seq [.str "reports/data_summary.html"])]),
    ("eda", .pmap [
      ("cmd", .str "python src/pipeline/eda_pipeline.py"),
      ("deps", .seq [.str "src/pipeline/eda_pipeline.py",
                     .str "data/processed/cleaned_data.csv"]),
      ("outs", .seq [.str "reports/eda_report.html",
                     .str "reports/figures/"]),
      ("metrics", .seq [.str "reports/eda_metrics.json"]),
      ("params", .seq [.str "params/eda_params.yaml"])]),
    ("preprocess", .pmap [
      ("cmd", .str "python src/pipeline/preprocess.py"),
      ("deps", .seq [.str "src/pipeline/preprocess.py",
                     .str "data/processed/cleaned_data.csv",
                     .str "params/preprocess_params.yaml"]),
      ("outs", .seq [.str "data/processed/train.csv",
                     .str "data/processed/test.csv",
                     .str "models/preprocessor.pkl"])])])]

/-- Field lookup in a nested-mapping value (the first binding wins, as in a
dictionary built without duplicate keys). -/
def pvLookup (v : PValue) (key : String) : Option PValue :=
  match v with
  | .pmap kvs => List.lookup key kvs
  | _ => none

/-! ## Pipeline Stage Model builder -/

/-- One named pipeline stage: command, ordered dependency and output lists,
optional metrics / plots / params references. -/
structure Stage where
  cmd : String
  deps : List String
  outs : List String
  metrics : List String := []
  plots : List String := []
  params : List String := []
deriving DecidableEq

/-- A pipeline: an ordered mapping from stage name to stage. -/
structure Pipeline where
  stages : List (String × Stage)
deriving DecidableEq

inductive ConfigurationError where
  | duplicateStage
deriving DecidableEq

/-- Modelled from the spec: the repository builds the pipeline mapping as a
single literal (`create_dvc_pipeline`) and has no in-memory builder, so
§4.2's `addStage(name, command, dependencies, outputs, metrics?, plots?,
params?)`, "rejecting a duplicate name with a configuration error", is
modelled here. -/
def addStage (p : Pipeline) (name : String) (s : Stage) :
    Except ConfigurationError Pipeline :=
  if name ∈ p.stages.map Prod.fst then .error .duplicateStage
  else .ok ⟨p.stages ++ [(name, s)]⟩

/-- The `load_data` stage of `create_dvc_pipeline`, as a `Stage` record. -/
def loadDataStage : Stage :=
  { cmd := "python src/pipeline/load_data.py",
    deps := ["src/pipeline/load_data.py", "data/raw/MachineLearningRating_v3.txt"],
    outs := ["data/processed/cleaned_data.csv", "data/processed/data_info.json"],
    metrics := ["reports/load_metrics.json"],
    plots := ["reports/data_summary.html"] }

/-- C5: In the pipeline document produced by the Pipeline Stage Model, the
`eda` stage's dependency list equals
`["src/pipeline/eda_pipeline.py", "data/processed/cleaned_data.csv"]` in
exactly that order, the stage carries the params reference
`params/eda_params.yaml`, and the whole document (hence that ordering) is
preserved across serialize followed by deserialize. -/
theorem eda_stage_deps_exact :
    (((pvLookup pipelineConfig "stages").bind fun st => pvLookup st "eda").bind
        fun e => pvLookup e "deps")
      = some (.seq [.str "src/pipeline/eda_pipeline.py",
                    .str "data/processed/cleaned_data.csv"]) ∧
    (((pvLookup pipelineConfig "stages").bind fun st => pvLookup st "eda").bind
        fun e => pvLookup e "params")
      = some (.seq [.str "params/eda_params.yaml"]) ∧
    readDocument (writeDocument pipelineConfig) = some pipelineConfig :=
  ⟨rfl, rfl, readDocument_writeDocument pipelineConfig⟩

/-- C6: calling `addStage` a second time with a stage name already present
raises a configuration error on the second call; the rejected call produces
no new pipeline, so the pipeline is left unchanged. -/
theorem addStage_duplicate (p p' : Pipeline) (name : String) (s₁ s₂ : Stage)
    (h : addStage p name s₁ = .ok p') :
    addStage p' name s₂ = .error ConfigurationError.duplicateStage := by
  rw [addStage] at h
  split at h
  · exact absurd h (by simp)
  · have hp : p' = ⟨p.stages ++ [(name, s₁)]⟩ := by
      cases h
      rfl
    subst hp
    rw [addStage, if_pos ?_]
    simp

/-- Witness for C6 at a concrete input: adding the `load_data` stage to the
empty pipeline succeeds, and adding it again under the same name is
rejected with `duplicateStage`. -/
theorem addStage_duplicate_witness :
    addStage ⟨[("load_data", loadDataStage)]⟩ "load_data" loadDataStage
      = .error ConfigurationError.duplicateStage :=
  addStage_duplicate ⟨[]⟩ ⟨[("load_data", loadDataStage)]⟩ "load_data"
    loadDataStage loadDataStage (by rfl)

/-- C7: for every nested mapping M containing only scalars, sequences and
nested mappings, reading back a parameter document written from M yields M
exactly: the integer/float distinction (distinct `PValue` constructors) and
the order of every sequence are preserved. -/
theorem parameter_document_roundtrip (M : PValue) :
    readDocument (writeDocument M) = some M :=
  readDocument_writeDocument M

/-! ## Workspace filesystem model

Paths are segment lists; a filesystem is a set of directories plus an
association of file paths to their text content (a list of lines).
`writeText` overwrites unconditionally (in place, so a rewrite with the
same content is the identity), `touch` creates an empty file only when the
path is absent, and `mkdirExistOk` models `Path.mkdir(exist_ok=True)`.
-/

structure FileSystem where
  dirs : List (List String)
  files : List (List String × List String)
deriving DecidableEq

def assocLookup : List (List String × List String) → List String → Option (List String)
  | [], _ => none
  | (q, d) :: t, p => if q = p then some d else assocLookup t p

def updateAssoc :
    List (List String × List String) → List String → List String →
    List (List String × List String)
  | [], p, c => [(p, c)]
  | (q, d) :: t, p, c => if q = p then (p, c) :: t else (q, d) :: updateAssoc t p c

def lookupFile (fs : FileSystem) (p : List String) : Option (List String) :=
  assocLookup fs.files p

def FileSystem.writeText (fs : FileSystem) (p : List String) (c : List String) :
    FileSystem :=
  { fs with files := updateAssoc fs.files p c }

def FileSystem.touch (fs : FileSystem) (p : List String) : FileSystem :=
  match lookupFile fs p with
  | some _ => fs
  | none => { fs with files := updateAssoc fs.files p [] }

inductive FsError where
  | fileExists
  | parentMissing
deriving DecidableEq

def FileSystem.mkdirExistOk (fs : FileSystem) (p : List String) :
    Except FsError FileSystem :=
  if p ∈ fs.dirs then .ok fs
  else if (lookupFile fs p).isSome then .error .fileExists
  else if p.dropLast ∈ fs.dirs then .ok { fs with dirs := fs.dirs ++ [p] }
  else .error .parentMissing

theorem assocLookup_updateAssoc_self (l : List (List String × List String))
    (p : List String) (c : List String) :
    assocLookup (updateAssoc l p c) p = some c := by
  induction l with
  | nil => simp [updateAssoc, assocLookup]
  | cons e t ih =>
    obtain ⟨q, d⟩ := e
    by_cases h : q = p
    · subst h
      simp [updateAssoc, assocLookup]
    · simp [updateAssoc, assocLookup, h, ih]

theorem assocLookup_updateAssoc_ne (l : List (List String × List String))
    {p q : List String} (c : List String) (h : q ≠ p) :
    assocLookup (updateAssoc l q c) p = assocLookup l p := by
  induction l with
  | nil => simp [updateAssoc, assocLookup, h]
  | cons e t ih =>
    obtain ⟨r, d⟩ := e
    by_cases hr : r = q
    · subst hr
      simp [updateAssoc, assocLookup, h]
    · simp [updateAssoc, assocLookup, hr, ih]

theorem updateAssoc_self_of_lookup {l : List (List String × List String)}
    {p : List String} {c : List String} (h : assocLookup l p = some c) :
    updateAssoc l p c = l := by
  induction l with
  | nil => simp [assocLookup] at h
  | cons e t ih =>
    obtain ⟨q, d⟩ := e
    by_cases hq : q = p
    · subst hq
      rw [assocLookup, if_pos rfl] at h
      rw [updateAssoc, if_pos rfl]
      simp at h
      rw [h]
    · rw [assocLookup, if_neg hq] at h
      rw [updateAssoc, if_neg hq, ih h]

theorem lookupFile_writeText_self (fs : FileSystem) (p : List String)
    (c : List String) : lookupFile (fs.writeText p c) p = some c :=
  assocLookup_updateAssoc_self fs.files p c

theorem lookupFile_writeText_ne (fs : FileSystem) {p q : List String}
    (c : List String) (h : q ≠ p) :
    lookupFile (fs.writeText q c) p = lookupFile fs p :=
  assocLookup_updateAssoc_ne fs.files c h

theorem writeText_of_lookup {fs : FileSystem} {p : List String}
    {c : List String} (h : lookupFile fs p = some c) : fs.writeText p c = fs := by
  cases fs with
  | mk dirs files =>
    simp only [FileSystem.writeText]
    rw [updateAssoc_self_of_lookup h]

theorem touch_of_lookup {fs : FileSystem} {p : List String}
    (h : (lookupFile fs p).isSome) : fs.touch p = fs := by
  rw [FileSystem.touch]
  obtain ⟨c, hc⟩ := Option.isSome_iff_exists.mp h
  rw [hc]

theorem lookupFile_touch_ne (fs : FileSystem) {p q : List String} (h : q ≠ p) :
    lookupFile (fs.touch q) p = lookupFile fs p := by
  rw [FileSystem.touch]
  cases hq : lookupFile fs q with
  | some c => rfl
  | none => exact assocLookup_updateAssoc_ne fs.files [] h

theorem lookupFile_touch_self_isSome (fs : FileSystem) (p : List String) :
    (lookupFile (fs.touch p) p).isSome := by
  rw [FileSystem.touch]
  cases hq : lookupFile fs p with
  | some c => simp [hq]
  | none =>
    have : lookupFile { fs with files := updateAssoc fs.files p [] } p = some [] :=
      assocLookup_updateAssoc_self fs.files p []
    simp [this]

theorem writeText_dirs (fs : FileSystem) (p : List String) (c : List String) :
    (fs.writeText p c).dirs = fs.dirs := rfl

theorem touch_dirs (fs : FileSystem) (p : List String) :
    (fs.touch p).dirs = fs.dirs := by
  rw [FileSystem.touch]
  cases lookupFile fs p <;> rfl

theorem mkdir_mem_self {fs fs₁ : FileSystem} {p : List String}
    (h : fs.mkdirExistOk p = .ok fs₁) : p ∈ fs₁.dirs := by
  rw [FileSystem.mkdirExistOk] at h
  split at h
  · next hmem => cases h; exact hmem
  · split at h
    · exact absurd h (by simp)
    · split at h
      · cases h; simp
      · exact absurd h (by simp)

theorem mkdir_mem_mono {fs fs₁ : FileSystem} {p q : List String}
    (hq : q ∈ fs.dirs) (h : fs.mkdirExistOk p = .ok fs₁) : q ∈ fs₁.dirs := by
  rw [FileSystem.mkdirExistOk] at h
  split at h
  · cases h; exact hq
  · split at h
    · exact absurd h (by simp)
    · split at h
      · cases h; simp [hq]
      · exact absurd h (by simp)

theorem mkdir_of_mem {fs : FileSystem} {p : List String} (h : p ∈ fs.dirs) :
    fs.mkdirExistOk p = .ok fs := by
  rw [FileSystem.mkdirExistOk, if_pos h]

theorem path_ne (cwd : List String) {a b : List String} (h : a ≠ b) :
    cwd ++ a ≠ cwd ++ b :=
  fun hc => h (List.append_cancel_left hc)

/-! ## The Config Scaffold Writer (`setup_dvc.py`) -/

abbrev dvcDir (cwd : List String) : List String := cwd ++ [".dvc"]
abbrev plotsDir (cwd : List String) : List String := cwd ++ [".dvc", "plots"]
abbrev tmpDir (cwd : List String) : List String := cwd ++ [".dvc", "tmp"]
abbrev gitignorePath (cwd : List String) : List String := cwd ++ [".dvc", ".gitignore"]
abbrev configPath (cwd : List String) : List String := cwd ++ [".dvc", "config"]
abbrev statePath (cwd : List String) : List String := cwd ++ [".dvc", "state"]
abbrev confusionPath (cwd : List String) : List String :=
  cwd ++ [".dvc", "plots", "confusion.json"]
abbrev journalPath (cwd : List String) : List String := cwd ++ [".dvc", "state-journal"]
abbrev walPath (cwd : List String) : List String := cwd ++ [".dvc", "state-wal"]
abbrev lockPath (cwd : List String) : List String := cwd ++ [".dvc", "lock"]

def renderPath (p : List String) : String := String.intercalate "/" p

def gitignoreLines : List String :=
  ["# DVC internal files to ignore in Git", "tmp/", "state-journal*", "state-wal*",
   "state*", "lock*", "/rw", "/updater", "/updater.lock"]

def configLines (root : List String) : List String :=
  ["[core]",
   "    remote = localstorage",
   "    autostage = true",
   "",
   "[\x27remote \"localstorage\"\x27]",
   "    url = " ++ renderPath root ++ "/dvc_storage",
   "",
   "[cache]",
   "    type = hardlink,symlink",
   "    dir = .dvc/cache",
   "",
   "# Insurance Risk Analytics Project Configuration",
   "[feature]",
   "    machinelearning = true",
   "    analytics = true",
   "    ",
   "[\x27remote \"localstorage\"\x27]",
   "    ssl_verify = false",
   "    timeout = 30",
   "    verify = false"]

def stateLines (root : List String) : List String :=
  ["\x7b",
   "  \"version\": \"3.0.0\",",
   "  \"config\": \x7b",
   "    \"core\": \x7b",
   "      \"remote\": \"localstorage\",",
   "      \"autostage\": true",
   "    \x7d,",
   "    \"remote\": \x7b",
   "      \"localstorage\": \x7b",
   "        \"url\": \"" ++ renderPath root ++ "/dvc_storage\"",
   "      \x7d",
   "    \x7d",
   "  \x7d,",
   "  \"timestamp\": \"2024-01-15T10:30:00Z\",",
   "  \"project\": \"insurance-risk-analytics\",",
   "  \"data_tracked\": [",
   "    \"data/MachineLearningRating_v3.txt\"",
   "  ]",
   "\x7d"]

def confusionLines : List String :=
  ["\x7b",
   "  \"template\": \"confusion\",",
   "  \"x\": \"predicted\",",
   "  \"y\": \"actual\",",
   "  \"title\": \"Confusion Matrix\",",
   "  \"xlab\": \"Predicted\",",
   "  \"ylab\": \"Actual\"",
   "\x7d"]

/-- The unconditional write/touch tail of `create_dvc_directory`, applied
after the three directory-creation steps. -/
def scaffoldWrites (cwd : List String) (fs : FileSystem) : FileSystem :=
  ((((((fs.writeText (gitignorePath cwd) gitignoreLines).writeText
      (configPath cwd) (configLines cwd)).writeText
      (statePath cwd) (stateLines cwd)).writeText
      (confusionPath cwd) confusionLines).touch
      (journalPath cwd)).touch (walPath cwd)).touch (lockPath cwd)

/-- Models `create_dvc_directory` of `setup_dvc.py`: creates `.dvc`,
`.dvc/plots` and `.dvc/tmp` with create-if-absent semantics, writes the
ignore file, config, state and plot-template documents (overwriting
unconditionally), and touches the `state-journal`, `state-wal` and `lock`
marker files. -/
def create_dvc_directory (cwd : List String) (fs : FileSystem) :
    Except FsError FileSystem :=
  match fs.mkdirExistOk (dvcDir cwd) with
  | .error e => .error e
  | .ok fs1 =>
    match fs1.mkdirExistOk (plotsDir cwd) with
    | .error e => .error e
    | .ok fs2 =>
      match fs2.mkdirExistOk (tmpDir cwd) with
      | .error e => .error e
      | .ok fs3 => .ok (scaffoldWrites cwd fs3)

theorem scaffoldWrites_dirs (cwd : List String) (fs : FileSystem) :
    (scaffoldWrites cwd fs).dirs = fs.dirs := by
  rw [scaffoldWrites]
  simp [touch_dirs, writeText_dirs]

theorem scaffold_lookup_gitignore (cwd : List String) (fs : FileSystem) :
    lookupFile (scaffoldWrites cwd fs) (gitignorePath cwd) = some gitignoreLines := by
  rw [scaffoldWrites,
    lookupFile_touch_ne _ (path_ne cwd (by decide)),
    lookupFile_touch_ne _ (path_ne cwd (by decide)),
    lookupFile_touch_ne _ (path_ne cwd (by decide)),
    lookupFile_writeText_ne _ _ (path_ne cwd (by decide)),
    lookupFile_writeText_ne _ _ (path_ne cwd (by decide)),
    lookupFile_writeText_ne _ _ (path_ne cwd (by decide)),
    lookupFile_writeText_self]

theorem scaffold_lookup_config (cwd : List String) (fs : FileSystem) :
    lookupFile (scaffoldWrites cwd fs) (configPath cwd) = some (configLines cwd) := by
  rw [scaffoldWrites,
    lookupFile_touch_ne _ (path_ne cwd (by decide)),
    lookupFile_touch_ne _ (path_ne cwd (by decide)),
    lookupFile_touch_ne _ (path_ne cwd (by decide)),
    lookupFile_writeText_ne _ _ (path_ne cwd (by decide)),
    lookupFile_writeText_ne _ _ (path_ne cwd (by decide)),
    lookupFile_writeText_self]

theorem scaffold_lookup_state (cwd : List String) (fs : FileSystem) :
    lookupFile (scaffoldWrites cwd fs) (statePath cwd) = some (stateLines cwd) := by
  rw [scaffoldWrites,
    lookupFile_touch_ne _ (path_ne cwd (by decide)),
    lookupFile_touch_ne _ (path_ne cwd (by decide)),
    lookupFile_touch_ne _ (path_ne cwd (by decide)),
    lookupFile_writeText_ne _ _ (path_ne cwd (by decide)),
    lookupFile_writeText_self]

theorem scaffold_lookup_confusion (cwd : List String) (fs : FileSystem) :
    lookupFile (scaffoldWrites cwd fs) (confusionPath cwd) = some confusionLines := by
  rw [scaffoldWrites,
    lookupFile_touch_ne _ (path_ne cwd (by decide)),
    lookupFile_touch_ne _ (path_ne cwd (by decide)),
    lookupFile_touch_ne _ (path_ne cwd (by decide)),
    lookupFile_writeText_self]

theorem scaffold_journal_isSome (cwd : List String) (fs : FileSystem) :
    (lookupFile (scaffoldWrites cwd fs) (journalPath cwd)).isSome := by
  rw [scaffoldWrites,
    lookupFile_touch_ne _ (path_ne cwd (by decide)),
    lookupFile_touch_ne _ (path_ne cwd (by decide))]
  exact lookupFile_touch_self_isSome _ _

theorem scaffold_wal_isSome (cwd : List String) (fs : FileSystem) :
    (lookupFile (scaffoldWrites cwd fs) (walPath cwd)).isSome := by
  rw [scaffoldWrites, lookupFile_touch_ne _ (path_ne cwd (by decide))]
  exact lookupFile_touch_self_isSome _ _

theorem scaffold_lock_isSome (cwd : List String) (fs : FileSystem) :
    (lookupFile (scaffoldWrites cwd fs) (lockPath cwd)).isSome :=
  lookupFile_touch_self_isSome _ _

theorem scaffoldWrites_idem (cwd : List String) (fs : FileSystem) :
    scaffoldWrites cwd (scaffoldWrites cwd fs) = scaffoldWrites cwd fs := by
  conv_lhs => rw [scaffoldWrites]
  rw [writeText_of_lookup (scaffold_lookup_gitignore cwd fs),
    writeText_of_lookup (scaffold_lookup_config cwd fs),
    writeText_of_lookup (scaffold_lookup_state cwd fs),
    writeText_of_lookup (scaffold_lookup_confusion cwd fs),
    touch_of_lookup (scaffold_journal_isSome cwd fs),
    touch_of_lookup (scaffold_wal_isSome cwd fs),
    touch_of_lookup (scaffold_lock_isSome cwd fs)]

theorem create_ok_scaffold {cwd : List String} {fs fs' : FileSystem}
    (h : create_dvc_directory cwd fs = .ok fs') :
    ∃ fs3, fs' = scaffoldWrites cwd fs3 ∧
      dvcDir cwd ∈ fs3.dirs ∧ plotsDir cwd ∈ fs3.dirs ∧ tmpDir cwd ∈ fs3.dirs := by
  rw [create_dvc_directory] at h
  split at h
  · exact absurd h (by simp)
  · next fs1 h1 =>
    split at h
    · exact absurd h (by simp)
    · next fs2 h2 =>
      split at h
      · exact absurd h (by simp)
      · next fs3 h3 =>
        simp only [Except.ok.injEq] at h
        exact ⟨fs3, h.symm,
          mkdir_mem_mono (mkdir_mem_mono (mkdir_mem_self h1) h2) h3,
          mkdir_mem_mono (mkdir_mem_self h2) h3,
          mkdir_mem_self h3⟩

/-- C2: scaffold creation is idempotent — if a run of the Config Scaffold
Writer succeeds and produces workspace state `fs'`, then a second run with
the same parameters on `fs'` succeeds and yields exactly `fs'` again:
directory creation tolerates existing directories, every written file ends
with the same content, and no duplicate marker files appear. -/
theorem create_dvc_directory_idem (cwd : List String) (fs fs' : FileSystem)
    (h : create_dvc_directory cwd fs = .ok fs') :
    create_dvc_directory cwd fs' = .ok fs' := by
  obtain ⟨fs3, rfl, m1, m2, m3⟩ := create_ok_scaffold h
  have hdirs := scaffoldWrites_dirs cwd fs3
  have hm1 : dvcDir cwd ∈ (scaffoldWrites cwd fs3).dirs := by rw [hdirs]; exact m1
  have hm2 : plotsDir cwd ∈ (scaffoldWrites cwd fs3).dirs := by rw [hdirs]; exact m2
  have hm3 : tmpDir cwd ∈ (scaffoldWrites cwd fs3).dirs := by rw [hdirs]; exact m3
  simp only [create_dvc_directory, mkdir_of_mem hm1, mkdir_of_mem hm2,
    mkdir_of_mem hm3, scaffoldWrites_idem]

def scaffoldDemoCwd : List String := ["", "tmp", "proj"]

def scaffoldDemoFs : FileSystem := { dirs := [["", "tmp", "proj"]], files := [] }

def scaffoldDemoResult : FileSystem :=
  match create_dvc_directory scaffoldDemoCwd scaffoldDemoFs with
  | .ok fs => fs
  | .error _ => scaffoldDemoFs

/-- Witness for C2 at a concrete workspace: scaffolding `/tmp/proj` once
succeeds, and scaffolding the resulting state again returns it unchanged. -/
theorem create_dvc_directory_idem_witness :
    create_dvc_directory scaffoldDemoCwd scaffoldDemoResult = .ok scaffoldDemoResult :=
  create_dvc_directory_idem scaffoldDemoCwd scaffoldDemoFs scaffoldDemoResult (by rfl)

/-! ## A small JSON reader

`setup_dvc.py` writes the state and plot-template documents with a JSON
dump; `jsonParse` is a reader for that output (objects, arrays, strings
without escape sequences, integers, booleans, null), used to state that
the written plot template parses back to the intended mapping.
-/

inductive Json where
  | jstr (s : String)
  | jnum (n : Int)
  | jbool (b : Bool)
  | jnull
  | jarr (xs : List Json)
  | jobj (kvs : List (String × Json))

def isDigitCh (c : Char) : Bool := (digitVal? c).isSome

def skipWs : List Char → List Char
  | [] => []
  | c :: t => if c = ' ' ∨ c = '\n' then skipWs t else c :: t

def jParseStringBody : List Char → Option (String × List Char)
  | [] => none
  | c :: t =>
    if c = '"' then some ("", t)
    else match jParseStringBody t with
      | some p => some (String.mk (c :: p.1.data), p.2)
      | none => none

def jParseNum : List Char → Option (Json × List Char)
  | '-' :: t =>
    (match parseNat (t.takeWhile isDigitCh) with
     | some n => some (.jnum (-(n : Int)), t.dropWhile isDigitCh)
     | none => none)
  | t =>
    match parseNat (t.takeWhile isDigitCh) with
    | some n => some (.jnum ((n : Int)), t.dropWhile isDigitCh)
    | none => none

inductive JTask where
  | valT
  | membersT
  | elemsT
deriving DecidableEq

def jParse : Nat → JTask → List Char → Option (Json × List Char)
  | 0, _, _ => none
  | fuel + 1, .valT, cs =>
    match skipWs cs with
    | [] => none
    | c :: t =>
      if c = '"' then
        match jParseStringBody t with
        | some p => some (.jstr p.1, p.2)
        | none => none
      else if c = '\x7b' then
        match skipWs t with
        | '\x7d' :: r => some (.jobj [], r)
        | r => jParse fuel .membersT r
      else if c = '[' then
        match skipWs t with
        | ']' :: r => some (.jarr [], r)
        | r => jParse fuel .elemsT r
      else if c = 't' then
        match t with
        | 'r' :: 'u' :: 'e' :: r => some (.jbool true, r)
        | _ => none
      else if c = 'f' then
        match t with
        | 'a' :: 'l' :: 's' :: 'e' :: r => some (.jbool false, r)
        | _ => none
      else if c = 'n' then
        match t with
        | 'u' :: 'l' :: 'l' :: r => some (.jnull, r)
        | _ => none
      else jParseNum (c :: t)
  | fuel + 1, .membersT, cs =>
    match skipWs cs with
    | '"' :: t =>
      (match jParseStringBody t with
       | some k =>
         (match skipWs k.2 with
          | ':' :: r =>
            (match jParse fuel .valT r with
             | some v =>
               (match skipWs v.2 with
                | ',' :: r2 =>
                  (match jParse fuel .membersT r2 with
                   | some q =>
                     (match q.1 with
                      | .jobj kvs => some (.jobj ((k.1, v.1) :: kvs), q.2)
                      | _ => none)
                   | none => none)
                | '\x7d' :: r2 => some (.jobj [(k.1, v.1)], r2)
                | _ => none)
             | none => none)
          | _ => none)
       | none => none)
    | _ => none
  | fuel + 1, .elemsT, cs =>
    match jParse fuel .valT cs with
    | some v =>
      (match skipWs v.2 with
       | ',' :: r2 =>
         (match jParse fuel .elemsT r2 with
          | some q =>
            (match q.1 with
             | .jarr xs => some (.jarr (v.1 :: xs), q.2)
             | _ => none)
          | none => none)
       | ']' :: r2 => some (.jarr [v.1], r2)
       | _ => none)
    | none => none

def jsonParse (cs : List Char) : Option Json :=
  match jParse (2 * cs.length + 2) .valT cs with
  | some p => if skipWs p.2 = [] then some p.1 else none
  | none => none

/-- Joins the line list of a text file into its character stream, with a
newline between consecutive lines. -/
def linesChars : List String → List Char
  | [] => []
  | [l] => l.data
  | l :: t => l.data ++ '\n' :: linesChars t

def jsonField (j : Option Json) (key : String) : Option Json :=
  match j with
  | some (.jobj kvs) => List.lookup key kvs
  | _ => none

/-- C8: after the Config Scaffold Writer runs on workspace root `cwd` with
remote path `cwd/dvc_storage`, the written config document contains the
`remote "localstorage"` section header and a `url` line equal to
`cwd/dvc_storage`, the written ignore file contains the literal line
`state-journal*`, and the written plot-template document parses to a
mapping whose `template` field is `"confusion"`. -/
theorem scaffold_contents (cwd : List String) (fs fs' : FileSystem)
    (h : create_dvc_directory cwd fs = .ok fs') :
    lookupFile fs' (configPath cwd) = some (configLines cwd) ∧
    "[\x27remote \"localstorage\"\x27]" ∈ configLines cwd ∧
    ("    url = " ++ renderPath cwd ++ "/dvc_storage") ∈ configLines cwd ∧
    lookupFile fs' (gitignorePath cwd) = some gitignoreLines ∧
    "state-journal*" ∈ gitignoreLines ∧
    lookupFile fs' (confusionPath cwd) = some confusionLines ∧
    jsonField (jsonParse (linesChars confusionLines)) "template"
      = some (.jstr "confusion") := by
  obtain ⟨fs3, rfl, -, -, -⟩ := create_ok_scaffold h
  refine ⟨scaffold_lookup_config cwd fs3, ?_, ?_,
    scaffold_lookup_gitignore cwd fs3, by decide,
    scaffold_lookup_confusion cwd fs3, by rfl⟩
  · simp [configLines]
  · simp [configLines]

/-- Witness for C8 on the concrete workspace `/tmp/proj`. -/
theorem scaffold_contents_witness :
    lookupFile scaffoldDemoResult (configPath scaffoldDemoCwd)
        = some (configLines scaffoldDemoCwd) ∧
    "[\x27remote \"localstorage\"\x27]" ∈ configLines scaffoldDemoCwd ∧
    ("    url = " ++ renderPath scaffoldDemoCwd ++ "/dvc_storage")
        ∈ configLines scaffoldDemoCwd ∧
    lookupFile scaffoldDemoResult (gitignorePath scaffoldDemoCwd) = some gitignoreLines ∧
    "state-journal*" ∈ gitignoreLines ∧
    lookupFile scaffoldDemoResult (confusionPath scaffoldDemoCwd) = some confusionLines ∧
    jsonField (jsonParse (linesChars confusionLines)) "template"
      = some (.jstr "confusion") :=
  scaffold_contents scaffoldDemoCwd scaffoldDemoFs scaffoldDemoResult (by rfl)

/-! ## The Verification Reporter (`DVCSetup.verify_dvc_setup`)

The environment carries the workspace filesystem, the project root, and the
outcome of spawning `dvc --version`: `dvcAvailable = false` models the
`FileNotFoundError` raised when the tool cannot be located, which the
source catches with its blanket handler, returning the still-default
(all-false) verification dictionary.  The filesystem is threaded through
unchanged to state that verification never mutates the workspace.
-/

structure Verification where
  dvc_installed : Bool
  dvc_initialized : Bool
  remote_configured : Bool
  data_tracked : Bool
  git_integrated : Bool
deriving DecidableEq

def allFalseVerification : Verification :=
  { dvc_installed := false, dvc_initialized := false, remote_configured := false,
    data_tracked := false, git_integrated := false }

structure VerifyEnv where
  fs : FileSystem
  root : List String
  dvcAvailable : Bool
  dvcVersionCode : Int
deriving DecidableEq

/-- Substring test on character lists, modelling Python's `in` on the raw
config text. -/
def containsSub (needle : List Char) : List Char → Bool
  | [] => needle.isEmpty
  | c :: t => needle.isPrefixOf (c :: t) || containsSub needle t

def remotePatternChars : List Char := ("remote \"localstorage\"").data

/-- Does the entry name end in `.dvc`?  This is exactly what the glob
pattern `*.dvc` matches (`*` may match the empty string, so the name
`.dvc` itself matches, and `pathlib` globbing does not special-case
hidden names or directories). -/
def strEndsWithDvc (s : String) : Bool := (".dvc".data).isSuffixOf s.data

/-- A tracked-pointer file with the `.dvc` suffix directly in the
workspace root (the spec's reading of the `*.dvc` count). -/
def trackedPointerFilePresent (fs : FileSystem) (root : List String) : Bool :=
  fs.files.any fun kv =>
    decide (kv.1.dropLast = root) &&
      (match kv.1.getLast? with
       | some nm => strEndsWithDvc nm
       | none => false)

/-- What `project_root.glob("*.dvc")` actually yields a member of: any
directory entry of the root — file or directory — whose name ends in
`.dvc`. -/
def hasDvcEntry (fs : FileSystem) (root : List String) : Bool :=
  trackedPointerFilePresent fs root ||
    fs.dirs.any fun d =>
      decide (d.dropLast = root) &&
        (match d.getLast? with
         | some nm => strEndsWithDvc nm
         | none => false)

/-- Models `DVCSetup.verify_dvc_setup`: probe `dvc --version` (an
unavailable tool raises and the blanket handler returns the defaults),
then check config existence, the remote section by raw-text containment,
`*.dvc` entries in the root, and the `.git` marker directory. -/
def verify_dvc_setup (env : VerifyEnv) : Verification × FileSystem :=
  if env.dvcAvailable = false then (allFalseVerification, env.fs)
  else
    ({ dvc_installed := decide (env.dvcVersionCode = 0),
       dvc_initialized := (lookupFile env.fs (configPath env.root)).isSome,
       remote_configured :=
         match lookupFile env.fs (configPath env.root) with
         | some content => containsSub remotePatternChars (linesChars content)
         | none => false,
       data_tracked := hasDvcEntry env.fs env.root,
       git_integrated := decide ((env.root ++ [".git"]) ∈ env.fs.dirs) }, env.fs)

/-- C3: for every workspace (including one where the scaffold was never
created) verification is total — it returns the fixed five-flag record —
never mutates the workspace, every flag defaults to false when its
artifact is absent, and when the tool probe raises the whole record is the
all-false default. -/
theorem verify_default_false (env : VerifyEnv) :
    (verify_dvc_setup env).2 = env.fs ∧
    ((lookupFile env.fs (configPath env.root)).isSome = false →
      (verify_dvc_setup env).1.dvc_initialized = false ∧
      (verify_dvc_setup env).1.remote_configured = false) ∧
    (hasDvcEntry env.fs env.root = false →
      (verify_dvc_setup env).1.data_tracked = false) ∧
    (((env.root ++ [".git"]) ∈ env.fs.dirs → False) →
      (verify_dvc_setup env).1.git_integrated = false) ∧
    (env.dvcAvailable = false →
      (verify_dvc_setup env).1 = allFalseVerification) := by
  cases ha : env.dvcAvailable with
  | false =>
    rw [verify_dvc_setup, if_pos ha]
    refine ⟨rfl, fun _ => ⟨rfl, rfl⟩, fun _ => rfl, fun _ => rfl, fun _ => rfl⟩
  | true =>
    have hne : ¬ env.dvcAvailable = false := by rw [ha]; simp
    rw [verify_dvc_setup, if_neg hne]
    refine ⟨rfl, fun hc => ⟨hc, ?_⟩, fun ht => ht, fun hg => ?_, fun hfalse => ?_⟩
    · cases hcc : lookupFile env.fs (configPath env.root) with
      | none => rfl
      | some content => rw [hcc] at hc; simp at hc
    · simpa using hg
    · exact absurd hfalse (by simp)

def demoVerifyEnv : VerifyEnv :=
  { fs := { dirs := [["", "tmp", "proj"]], files := [] },
    root := ["", "tmp", "proj"], dvcAvailable := false, dvcVersionCode := 0 }

/-- Witness for C3 on a freshly-created empty workspace with no tool on
the path: all five flags are false and the filesystem is untouched. -/
theorem verify_default_false_witness :
    (verify_dvc_setup demoVerifyEnv).2 = demoVerifyEnv.fs ∧
    (verify_dvc_setup demoVerifyEnv).1.dvc_initialized = false ∧
    (verify_dvc_setup demoVerifyEnv).1.remote_configured = false ∧
    (verify_dvc_setup demoVerifyEnv).1.data_tracked = false ∧
    (verify_dvc_setup demoVerifyEnv).1.git_integrated = false ∧
    (verify_dvc_setup demoVerifyEnv).1 = allFalseVerification :=
  ⟨(verify_default_false demoVerifyEnv).1,
   ((verify_default_false demoVerifyEnv).2.1 (by decide)).1,
   ((verify_default_false demoVerifyEnv).2.1 (by decide)).2,
   (verify_default_false demoVerifyEnv).2.2.1 (by decide),
   (verify_default_false demoVerifyEnv).2.2.2.1 (by decide),
   (verify_default_false demoVerifyEnv).2.2.2.2 (by decide)⟩

def cexRoot : List String := ["", "tmp", "proj"]

/-- A workspace whose root holds the scaffold's `.dvc` directory and its
config file, but no tracked-pointer file at all. -/
def cexEnvTracked : VerifyEnv :=
  { fs := { dirs := [cexRoot, cexRoot ++ [".dvc"]],
            files := [(cexRoot ++ [".dvc", "config"], configLines cexRoot)] },
    root := cexRoot, dvcAvailable := true, dvcVersionCode := 0 }

/-- The same workspace when the external tool cannot be located. -/
def cexEnvUnavailable : VerifyEnv :=
  { fs := cexEnvTracked.fs, root := cexRoot, dvcAvailable := false,
    dvcVersionCode := 0 }

/-- C4 counterexample: (a) with the tool available, the workspace holds no
tracked-pointer file with the `.dvc` suffix, yet the data-tracked flag is
true — the `*.dvc` glob also matches the `.dvc` scaffold directory itself;
(b) with the tool unavailable, the config document exists and contains the
remote section name, yet the remote-configured flag is false — the version
probe raises first and the handler returns the defaults. -/
theorem verify_flags_counterexample :
    trackedPointerFilePresent cexEnvTracked.fs cexEnvTracked.root = false ∧
    (verify_dvc_setup cexEnvTracked).1.data_tracked = true ∧
    (lookupFile cexEnvUnavailable.fs (configPath cexEnvUnavailable.root)).isSome
      = true ∧
    containsSub remotePatternChars
      (linesChars (configLines cexEnvUnavailable.root)) = true ∧
    (verify_dvc_setup cexEnvUnavailable).1.remote_configured = false := by
  decide

/-- C4 amended: provided the tool probe does not raise, the
remote-configured flag is true exactly when the scaffold's config document
exists and its raw text contains the configured remote section name, and
the data-tracked flag is true exactly when the workspace root holds at
least one directory entry — tracked-pointer file or directory, including
the `.dvc` scaffold directory itself — whose name ends in `.dvc`. -/
theorem verify_flags_exact (env : VerifyEnv) (h : env.dvcAvailable = true) :
    ((verify_dvc_setup env).1.remote_configured = true ↔
      ∃ content, lookupFile env.fs (configPath env.root) = some content ∧
        containsSub remotePatternChars (linesChars content) = true) ∧
    ((verify_dvc_setup env).1.data_tracked = true ↔
      hasDvcEntry env.fs env.root = true) := by
  have hne : ¬ env.dvcAvailable = false := by rw [h]; simp
  rw [verify_dvc_setup, if_neg hne]
  refine ⟨?_, Iff.rfl⟩
  cases hc : lookupFile env.fs (configPath env.root) with
  | none => simp [hc]
  | some content => simp [hc]

/-- Witness for the amended C4 on the concrete workspace of the
counterexample. -/
theorem verify_flags_exact_witness :
    ((verify_dvc_setup cexEnvTracked).1.remote_configured = true ↔
      ∃ content, lookupFile cexEnvTracked.fs (configPath cexEnvTracked.root)
          = some content ∧
        containsSub remotePatternChars (linesChars content) = true) ∧
    ((verify_dvc_setup cexEnvTracked).1.data_tracked = true ↔
      hasDvcEntry cexEnvTracked.fs cexEnvTracked.root = true) :=
  verify_flags_exact cexEnvTracked (by rfl)

/-! ## The External Tool Façade (`DVCSetup`)

Each subprocess invocation either runs (with an exit status and captured
diagnostic text) or raises `FileNotFoundError` because the program cannot
be located; `ProcOutcome` captures the two.  The façade methods return the
plain booleans the source returns; the captured diagnostic text is only
logged.  `setup_local_remote` also performs its filesystem effects (the
storage directory and the `.dvcignore` file), which are modelled on the
`FileSystem` it threads through.
-/

structure ProcResult where
  returncode : Int
  stderr : String
deriving DecidableEq

inductive ProcOutcome where
  | ran (r : ProcResult)
  | toolMissing
deriving DecidableEq

def isRan : ProcOutcome → Bool
  | .ran _ => true
  | .toolMissing => false

def isRanZero : ProcOutcome → Bool
  | .ran r => decide (r.returncode = 0)
  | .toolMissing => false

structure FacadeEnv where
  dvcInit : ProcOutcome
  gitDirExists : Bool
  gitInit : ProcOutcome
  remoteAdd : ProcOutcome
  remoteDefault : ProcOutcome
  dvcAdd : ProcOutcome
  gitAdd : ProcOutcome
  gitCommit : ProcOutcome
  dvcPush : ProcOutcome
deriving DecidableEq

/-- Models `DVCSetup.initialize_dvc`: run `dvc init --no-scm`; on success,
run `git init` when no `.git` directory exists (a missing `git` binary
raises `FileNotFoundError`, which the method's only handler catches,
returning `False`). -/
def init_dvc (env : FacadeEnv) : Bool :=
  match env.dvcInit with
  | .toolMissing => false
  | .ran r =>
    if r.returncode = 0 then
      if env.gitDirExists then true
      else
        match env.gitInit with
        | .toolMissing => false
        | .ran _ => true
    else false

def dvcignoreLines : List String :=
  ["# Ignore patterns for DVC", "*.pyc", "__pycache__/", ".ipynb_checkpoints/",
   ".DS_Store", "Thumbs.db", "*.log", "logs/", "reports/temp/", "models/temp/"]

/-- Models `DVCSetup.setup_local_remote`: create the storage directory,
run `dvc remote add -d localstorage <dir>`; on success run
`dvc remote default localstorage` (its exit status is ignored, but a
raised `FileNotFoundError` is caught by the blanket handler) and write
`.dvcignore`. -/
def setup_local_remote (env : FacadeEnv) (root : List String)
    (storagePath : String) (fs : FileSystem) : Bool × FileSystem :=
  match fs.mkdirExistOk (root ++ [storagePath]) with
  | .error _ => (false, fs)
  | .ok fs1 =>
    match env.remoteAdd with
    | .toolMissing => (false, fs1)
    | .ran r =>
      if r.returncode = 0 then
        match env.remoteDefault with
        | .toolMissing => (false, fs1)
        | .ran _ => (true, fs1.writeText (root ++ [".dvcignore"]) dvcignoreLines)
      else (false, fs1)

/-- Does a path exist in the filesystem, as file or directory? -/
def entryExists (fs : FileSystem) (p : List String) : Bool :=
  (lookupFile fs p).isSome || decide (p ∈ fs.dirs)

/-- Models `DVCSetup.add_data_to_dvc`: missing data file reports failure;
otherwise run `dvc add`; on success the `git add` of the pointer file has
its result ignored. -/
def add_data_to_dvc (env : FacadeEnv) (root : List String)
    (dataPath : List String) (fs : FileSystem) : Bool :=
  if entryExists fs (root ++ dataPath) then
    match env.dvcAdd with
    | .toolMissing => false
    | .ran r =>
      if r.returncode = 0 then
        match env.gitAdd with
        | .toolMissing => false
        | .ran _ => true
      else false
  else false

/-- Models `DVCSetup.commit_changes`: `git add .dvc` (result ignored, but a
missing binary raises into the blanket handler), then `git commit -m m`. -/
def commit_changes (env : FacadeEnv) : Bool :=
  match env.gitAdd with
  | .toolMissing => false
  | .ran _ =>
    match env.gitCommit with
    | .toolMissing => false
    | .ran r => decide (r.returncode = 0)

/-- Models `DVCSetup.push_to_remote`: run `dvc push`. -/
def push_to_remote (env : FacadeEnv) : Bool :=
  match env.dvcPush with
  | .toolMissing => false
  | .ran r => decide (r.returncode = 0)

/-- Did a directory-creation step succeed? -/
def mkdirOk (fs : FileSystem) (p : List String) : Bool :=
  match fs.mkdirExistOk p with
  | .ok _ => true
  | .error _ => false

def ranOk : ProcOutcome := .ran { returncode := 0, stderr := "" }

/-- An environment in which every tool invocation runs and fails with a
non-zero status and captured diagnostic text. -/
def envToolFailed : FacadeEnv :=
  { dvcInit := .ran { returncode := 1, stderr := "ERROR: failed to initiate DVC" },
    gitDirExists := true, gitInit := ranOk,
    remoteAdd := .ran { returncode := 1, stderr := "ERROR: configuration error" },
    remoteDefault := ranOk,
    dvcAdd := .ran { returncode := 1, stderr := "ERROR: output does not exist" },
    gitAdd := ranOk,
    gitCommit := .ran { returncode := 1, stderr := "nothing to commit" },
    dvcPush := .ran { returncode := 1, stderr := "ERROR: failed to push" } }

/-- An environment in which the external programs cannot be located. -/
def envToolMissing : FacadeEnv :=
  { dvcInit := .toolMissing, gitDirExists := true, gitInit := .toolMissing,
    remoteAdd := .toolMissing, remoteDefault := .toolMissing,
    dvcAdd := .toolMissing, gitAdd := .toolMissing, gitCommit := .toolMissing,
    dvcPush := .toolMissing }

/-- C1 counterexample: the façade's returned results are not tri-state — a
recoverable failure (tool ran, non-zero status, diagnostic captured) and an
unavailable-tool failure return the very same value `false` from every
operation, so the two outcomes are not distinct to the caller, and the
diagnostic text is not surfaced in the result. -/
theorem facade_not_tristate :
    init_dvc envToolFailed = init_dvc envToolMissing ∧
    init_dvc envToolFailed = false ∧
    push_to_remote envToolFailed = push_to_remote envToolMissing ∧
    push_to_remote envToolFailed = false ∧
    commit_changes envToolFailed = commit_changes envToolMissing ∧
    commit_changes envToolFailed = false := by
  decide

/-- C1 amended: every façade operation returns a two-state boolean — true
exactly on its success path, and the same `false` for both the
recoverable (tool ran, non-zero status) and the unavailable-tool failure,
the diagnostic text being only logged, never returned. -/
theorem facade_results_two_state (env : FacadeEnv) (root : List String)
    (storagePath : String) (dataPath : List String) (fs : FileSystem) :
    init_dvc env
      = (isRanZero env.dvcInit && (env.gitDirExists || isRan env.gitInit)) ∧
    (setup_local_remote env root storagePath fs).1
      = (mkdirOk fs (root ++ [storagePath]) &&
         isRanZero env.remoteAdd && isRan env.remoteDefault) ∧
    add_data_to_dvc env root dataPath fs
      = (entryExists fs (root ++ dataPath) && isRanZero env.dvcAdd &&
         isRan env.gitAdd) ∧
    commit_changes env = (isRan env.gitAdd && isRanZero env.gitCommit) ∧
    push_to_remote env = isRanZero env.dvcPush := by
  refine ⟨?_, ?_, ?_, ?_, ?_⟩
  · cases hi : env.dvcInit with
    | toolMissing => simp [init_dvc, isRanZero, hi]
    | ran r =>
      by_cases hr : r.returncode = 0
      · cases hg : env.gitDirExists with
        | true => simp [init_dvc, isRanZero, isRan, hi, hr, hg]
        | false =>
          cases hgi : env.gitInit with
          | toolMissing => simp [init_dvc, isRanZero, isRan, hi, hr, hg, hgi]
          | ran r2 => simp [init_dvc, isRanZero, isRan, hi, hr, hg, hgi]
      · simp [init_dvc, isRanZero, hi, hr]
  · cases hm : fs.mkdirExistOk (root ++ [storagePath]) with
    | error e =>
      simp [setup_local_remote, mkdirOk, hm]
    | ok fs1 =>
      cases ha : env.remoteAdd with
      | toolMissing => simp [setup_local_remote, mkdirOk, hm, isRanZero, ha]
      | ran r =>
        by_cases hr : r.returncode = 0
        · cases hd : env.remoteDefault with
          | toolMissing =>
            simp [setup_local_remote, mkdirOk, hm, isRanZero, isRan, ha, hr, hd]
          | ran r2 =>
            simp [setup_local_remote, mkdirOk, hm, isRanZero, isRan, ha, hr, hd]
        · simp [setup_local_remote, mkdirOk, hm, isRanZero, ha, hr]
  · cases he : entryExists fs (root ++ dataPath) with
    | false => simp [add_data_to_dvc, he]
    | true =>
      cases ha : env.dvcAdd with
      | toolMissing => simp [add_data_to_dvc, he, isRanZero, ha]
      | ran r =>
        by_cases hr : r.returncode = 0
        · cases hg : env.gitAdd with
          | toolMissing => simp [add_data_to_dvc, he, isRanZero, isRan, ha, hr, hg]
          | ran r2 => simp [add_data_to_dvc, he, isRanZero, isRan, ha, hr, hg]
        · simp [add_data_to_dvc, he, isRanZero, ha, hr]
  · cases hg : env.gitAdd with
    | toolMissing => simp [commit_changes, isRan, hg]
    | ran r =>
      cases hc : env.gitCommit with
      | toolMissing => simp [commit_changes, isRan, isRanZero, hg, hc]
      | ran r2 => simp [commit_changes, isRan, isRanZero, hg, hc]
  · cases hp : env.dvcPush with
    | toolMissing => simp [push_to_remote, isRanZero, hp]
    | ran r => simp [push_to_remote, isRanZero, hp]

/-! ## The raw-data loader (`src/data_loader.py`)

`load_raw_data` resolves its path (default-path probing when none is
given), then calls the CSV reader inside a `try` whose two handlers —
`except FileNotFoundError` and `except Exception` — both print a message
and return `None`.  The environment carries the filesystem probe and the
reader's outcome; the result type `Except PyErr (Option RawFrame)` makes
an uncaught exception representable, so totality is a theorem, not a
typing accident.
-/

structure RawFrame where
  rows : Nat
  cols : Nat
deriving DecidableEq

inductive PyErr where
  | fileNotFound
  | otherErr (msg : String)
deriving DecidableEq

structure LoaderEnv where
  pathExists : String → Bool
  readCsv : String → Except PyErr RawFrame

def defaultPathA : String := "../data/MachineLearningRating_v3.txt"

def defaultPathB : String := "data/MachineLearningRating_v3.txt"

def resolveRawPath (env : LoaderEnv) (filepath : Option String) : String :=
  match filepath with
  | some p => p
  | none => if env.pathExists defaultPathA then defaultPathA else defaultPathB

/-- Models `load_raw_data`: resolve the path, read the delimited file, and
map each failure kind to `None` through the corresponding handler. -/
def load_raw_data (env : LoaderEnv) (filepath : Option String) :
    Except PyErr (Option RawFrame) :=
  match env.readCsv (resolveRawPath env filepath) with
  | .ok df => .ok (some df)
  | .error .fileNotFound => .ok none
  | .error (.otherErr _) => .ok none

/-- C9: `load_raw_data` never raises — for every environment and argument
it returns normally, with the loaded frame on success and `None` for any
failure while locating or parsing the file. -/
theorem load_raw_data_total (env : LoaderEnv) (filepath : Option String) :
    load_raw_data env filepath
      = .ok (env.readCsv (resolveRawPath env filepath)).toOption := by
  rw [load_raw_data]
  cases h : env.readCsv (resolveRawPath env filepath) with
  | ok df => rfl
  | error e => cases e <;> rfl

/-! ## The missing-value report (`src/eda.py`)

A dataframe is its row count plus named columns of optional cells.  The
report keeps, for each column with at least one missing cell, the missing
count (`Total`) and `Total / len(df) * 100` (`Percent`), sorted by
`Total` in non-increasing order.
-/

structure DataFrame where
  nrows : Nat
  cols : List (String × List (Option String))

def nullCount (cells : List (Option String)) : Nat :=
  (cells.filter fun c => c.isNone).length

def columnStats (df : DataFrame) : List (String × Nat × ℚ) :=
  df.cols.map fun col =>
    (col.1, nullCount col.2, ((nullCount col.2 : ℚ) / (df.nrows : ℚ)) * 100)

def missing_value_report (df : DataFrame) : List (String × Nat × ℚ) :=
  List.insertionSort (fun a b => b.2.1 ≤ a.2.1)
    ((columnStats df).filter fun r => decide (0 < r.2.1))

/-- C10: every row of the missing-value report has a strictly positive
`Total`, its `Percent` equals `Total / nrows * 100`, and the rows are in
non-increasing order of `Total`. -/
theorem missing_value_report_spec (df : DataFrame) :
    (∀ row ∈ missing_value_report df,
        0 < row.2.1 ∧ row.2.2 = ((row.2.1 : ℚ) / (df.nrows : ℚ)) * 100) ∧
    (missing_value_report df).Sorted (fun a b => b.2.1 ≤ a.2.1) := by
  constructor
  · intro row hrow
    have hmem : row ∈ (columnStats df).filter fun r => decide (0 < r.2.1) :=
      ((List.perm_insertionSort _ _).mem_iff).mp hrow
    have hfil := List.of_mem_filter hmem
    have hstats := List.mem_of_mem_filter hmem
    have hpos : 0 < row.2.1 := by simpa using hfil
    refine ⟨hpos, ?_⟩
    simp only [columnStats, List.mem_map] at hstats
    obtain ⟨col, -, hcol⟩ := hstats
    rw [← hcol]
  · haveI : IsTotal (String × Nat × ℚ) (fun a b => b.2.1 ≤ a.2.1) :=
      ⟨fun a b => Nat.le_total b.2.1 a.2.1⟩
    haveI : IsTrans (String × Nat × ℚ) (fun a b => b.2.1 ≤ a.2.1) :=
      ⟨fun _ _ _ h1 h2 => le_trans h2 h1⟩
    exact List.sorted_insertionSort _ _

/-- A small dataframe with two partially-missing columns and one complete
column. -/
def demoDataFrame : DataFrame :=
  { nrows := 4,
    cols := [("TotalPremium", [some "1000", none, some "2500", none]),
             ("Province", [some "Gauteng", some "WC", some "KZN", some "EC"]),
             ("TotalClaims", [none, some "0", some "500", some "700"])] }

/-- Witness for C10 on the small dataframe: the `TotalPremium` row reports
2 missing cells out of 4 rows, and the report is sorted. -/
theorem missing_value_report_spec_witness :
    (0 < (("TotalPremium", 2, ((2 : ℚ) / (4 : ℚ)) * 100) : String × Nat × ℚ).2.1 ∧
      (("TotalPremium", 2, ((2 : ℚ) / (4 : ℚ)) * 100) : String × Nat × ℚ).2.2
        = (((("TotalPremium", 2, ((2 : ℚ) / (4 : ℚ)) * 100) :
              String × Nat × ℚ).2.1 : ℚ)
            / (demoDataFrame.nrows : ℚ)) * 100) ∧
    (missing_value_report demoDataFrame).Sorted (fun a b => b.2.1 ≤ a.2.1) :=
  ⟨(missing_value_report_spec demoDataFrame).1
      ("TotalPremium", 2, ((2 : ℚ) / (4 : ℚ)) * 100)
      (List.mem_cons_self _ _),
   (missing_value_report_spec demoDataFrame).2⟩

end InsuranceRisk
